import Mathlib

/-!
A shallow embedding of the runtime argument-parsing core of the `argh`
command-line parsing library (file `argh/src/lib.rs`), together with
theorems checking the natural-language specification of the library
against it.

Rust mutable state is rendered as explicit state passing: a Rust method
`fn f(&mut self, ...) -> Result<(), E>` becomes a Lean function returning
the updated value paired with (or inside) an `Except`.  Trait objects
(`dyn ParseValueSlot`, `dyn ParseFlag`, `dyn FnMut`) are rendered as a
closed inductive of the impls that exist in the library, parametrised by
a dynamic value type `V` standing for the union of the field types of a
particular schema.  Machine integers appear only in the saturating switch
counters, modelled as `Int` with an explicit upper clamp.
-/

deriving instance DecidableEq for Except

namespace Argh

/-- Structure `EarlyExit` from `lib.rs`: `output: String`, `status: Result<(), ()>`.
`Except.ok ()` models `Ok(())` (help path), `Except.error ()` models
`Err(())` (failure path). -/
structure EarlyExit where
  output : String
  status : Except Unit Unit
deriving Repr, DecidableEq

/-- Impl `From<String> for EarlyExit`: an error message becomes a
failure-status exit. -/
def EarlyExit.fromString (err_msg : String) : EarlyExit :=
  { output := err_msg, status := .error () }

/-- Structure `CommandInfo` (from `argh_shared`): the name and description
of a subcommand. -/
structure CommandInfo where
  name : String
  description : String
deriving Repr, DecidableEq

/-- Saturating increment, `saturating_add(1)` as used by the `Flag` impls
for the integer types: the counter value is clamped at the type maximum
`maxv`.  (The counters
start from the `Flag::default()` value `0` and only ever increase, so the
lower clamp of the Rust type can never engage and is not modelled.) -/
def saturating_incr (maxv v : Int) : Int :=
  min (v + 1) maxv

/-- The receivers of `set_flag`, i.e. the `ParseFlag` impls in `lib.rs`:
`bool`, `Option<bool>`, the integer types (via `impl_flag_for_integers`,
each with its own maximum), and `RedactFlag`. -/
inductive FlagSlot where
  | boolFlag (b : Bool)
  | optBoolFlag (b : Option Bool)
  | intFlag (maxv : Int) (v : Int)
  | redact (slot : Option String)
deriving Repr, DecidableEq

/-- Method `ParseFlag::set_flag(&mut self, arg)`: `bool` becomes `true`,
`Option<bool>` becomes `Some(true)`, integers saturating-increment, and
`RedactFlag` records the flag string itself. -/
def FlagSlot.set_flag : FlagSlot → String → FlagSlot
  | .boolFlag _, _ => .boolFlag true
  | .optBoolFlag _, _ => .optBoolFlag (some true)
  | .intFlag maxv v, _ => .intFlag maxv (saturating_incr maxv v)
  | .redact _, arg => .redact (some arg)

/-- The three `ParseValueSlot` impls on `ParseValueSlotTy`:
`Option<T>` (all non-repeating arguments), `Vec<T>` (repeating), and
`Option<Vec<T>>` (optional repeating).  Each carries its `parse_func`. -/
inductive ParseValueSlot (V : Type) where
  | opt (parse_func : String → String → Except String V) (slot : Option V)
  | vec (parse_func : String → String → Except String V) (slot : List V)
  | optVec (parse_func : String → String → Except String V) (slot : Option (List V))

/-- Method `fill_slot(&mut self, arg, value) -> Result<(), String>`:
returns the updated slot together with the result of the call.  The `Option` impl rejects a
second fill with "duplicate values provided"; the `Vec` impls push the
parsed value; a `parse_func` error leaves the slot untouched. -/
def ParseValueSlot.fill_slot {V : Type} :
    ParseValueSlot V → String → String → ParseValueSlot V × Except String Unit
  | .opt p (some v), _, _ => (.opt p (some v), .error "duplicate values provided")
  | .opt p none, arg, value =>
    match p arg value with
    | .error e => (.opt p none, .error e)
    | .ok t => (.opt p (some t), .ok ())
  | .vec p vs, arg, value =>
    match p arg value with
    | .error e => (.vec p vs, .error e)
    | .ok t => (.vec p (vs ++ [t]), .ok ())
  | .optVec p vs, arg, value =>
    match p arg value with
    | .error e => (.optVec p vs, .error e)
    | .ok t => (.optVec p (some ((vs.getD []) ++ [t])), .ok ())

/-- The data held by a value slot, with the `parse_func` projected away
(needed because functions have no decidable equality). -/
inductive StoredSlot (V : Type) where
  | opt (v : Option V)
  | vec (vs : List V)
  | optVec (vs : Option (List V))
deriving Repr, DecidableEq

/-- Project the stored data out of a value slot. -/
def ParseValueSlot.stored {V : Type} : ParseValueSlot V → StoredSlot V
  | .opt _ v => .opt v
  | .vec _ vs => .vec vs
  | .optVec _ vs => .optVec vs

/-- Enum `ParseStructOption`: a named option is either a switch (`Flag`) or an
option taking a value (`Value`). -/
inductive ParseStructOption (V : Type) where
  | flag (f : FlagSlot)
  | value (slot : ParseValueSlot V)

/-- Function-free view of a `ParseStructOption`. -/
inductive StoredOption (V : Type) where
  | flag (f : FlagSlot)
  | value (s : StoredSlot V)
deriving Repr, DecidableEq

/-- Project the stored data out of an option slot. -/
def ParseStructOption.stored {V : Type} : ParseStructOption V → StoredOption V
  | .flag f => .flag f
  | .value s => .value s.stored

/-- Structure `ParseStructOptions`: the flag-string registry `arg_to_slot`, the slot
table, and the configured help triggers. -/
structure ParseStructOptions (V : Type) where
  arg_to_slot : List (String × Nat)
  slots : List (ParseStructOption V)
  help_triggers : List String

/-- The registry lookup in `ParseStructOptions::parse`: the first entry
whose string equals `arg` exactly, if any. -/
def lookup_slot (arg_to_slot : List (String × Nat)) (arg : String) : Option Nat :=
  arg_to_slot.findSome? (fun p => if p.1 = arg then some p.2 else none)

/-- Function `unrecognized_argument` from `lib.rs`. -/
def unrecognized_argument (x : String) : String :=
  "Unrecognized argument: " ++ x ++ "\n"

/-- Function `unrecognized_arg` from `lib.rs` (the positional-overflow
message). -/
def unrecognized_arg (arg : String) : String :=
  "Unrecognized argument: " ++ arg ++ "\n"

/-- The Rust method `str::starts_with` at a one-character pattern, as
used on `next_arg` with the dash character: test the first character of
the string. -/
def starts_with_char (c : Char) (s : String) : Bool :=
  match s.data with
  | [] => false
  | a :: _ => a == c

/-- Structure `ParseStructPositional`: the name of a positional and its
value slot. -/
structure ParseStructPositional (V : Type) where
  name : String
  slot : ParseValueSlot V

/-- Method `ParseStructPositional::parse`: fill the slot with the raw token
(`arg_name` is passed as `""`), wrapping a fill error in the
"Error parsing positional argument ..." message. -/
def ParseStructPositional.parse {V : Type} (p : ParseStructPositional V)
    (arg : String) : Except EarlyExit (ParseStructPositional V) :=
  match p.slot.fill_slot "" arg with
  | (_, .error s) =>
    .error (EarlyExit.fromString
      ("Error parsing positional argument '" ++ p.name ++ "' with value '" ++
        arg ++ "': " ++ s ++ "\n"))
  | (slot', .ok ()) => .ok { p with slot := slot' }

/-- Structure `ParseStructPositionals`: the ordered positional slots, plus whether
the last one is repeating and whether it is greedy (remainder). -/
structure ParseStructPositionals (V : Type) where
  positionals : List (ParseStructPositional V)
  last_is_repeating : Bool
  last_is_greedy : Bool

/-- Method `ParseStructPositionals::parse(&mut index, arg)`: fill the positional
at the cursor; the cursor does not advance when it sits on a last
repeating positional (and then reports `last_is_greedy` as the
"stop non-positional parsing" result); a token beyond the positional
table is an "Unrecognized argument" failure.  Returns the updated
positionals, the updated cursor, and the `Ok(bool)` result. -/
def ParseStructPositionals.parse {V : Type} (ps : ParseStructPositionals V)
    (index : Nat) (arg : String) :
    Except EarlyExit (ParseStructPositionals V × Nat × Bool) :=
  if h : index < ps.positionals.length then
    match (ps.positionals.get ⟨index, h⟩).parse arg with
    | .error e => .error e
    | .ok p' =>
      if ps.last_is_repeating && index == ps.positionals.length - 1 then
        .ok ({ ps with positionals := ps.positionals.set index p' }, index,
          ps.last_is_greedy)
      else
        .ok ({ ps with positionals := ps.positionals.set index p' }, index + 1,
          false)
  else
    .error { output := unrecognized_arg arg, status := .error () }

/-- Function `prepend_help`: put the literal token `help` in front of the argument
list handed to a subcommand. -/
def prepend_help (args : List String) : List String :=
  "help" :: args

/-- Structure `ParseStructSubCommand`: the static and dynamic subcommand tables and
the parse function for the matched child (the `FnMut(&[&str], &[&str])`
trait object, modelled as a pure function into `Except`). -/
structure ParseStructSubCommand where
  subcommands : List CommandInfo
  dynamic_subcommands : List CommandInfo
  parse_func : List String → List String → Except EarlyExit Unit

/-- Method `ParseStructSubCommand::parse`: scan static then dynamic
descriptors for one whose name equals the token; on a match, extend the
command path with the matched name, prepend `help` to the remaining args
when the parent help flag is set, run the child parser, and report
`true`.
Report `false` when nothing matches. -/
def ParseStructSubCommand.parse (sc : ParseStructSubCommand) (help : Bool)
    (cmd_name : List String) (arg : String) (remaining_args : List String) :
    Except EarlyExit Bool :=
  match (sc.subcommands ++ sc.dynamic_subcommands).find?
      (fun subcommand => subcommand.name == arg) with
  | some subcommand =>
    let command := cmd_name ++ [subcommand.name]
    let remaining_args := if help then prepend_help remaining_args else remaining_args
    match sc.parse_func command remaining_args with
    | .error e => .error e
    | .ok () => .ok true
  | none => .ok false

/-- The main token loop of `parse_struct_args`, with the loop-carried
state (`help`, `positional_index`, `options_ended`) passed explicitly and
the final state returned.  The body of `ParseStructOptions::parse` is
inlined at its single call site (that helper consumes the value token of
an option itself via `remaining_args`).  The Rust loop terminates because
every iteration strictly shrinks the token slice; `fuel` renders that
bound explicitly (it is seeded with `args.length` by `parse_struct_args`
and never runs out, see `parse_struct_args_loop_fuel`).  A subcommand
match models the Rust statements `help = false` and `break`. -/
def parse_struct_args_loop {V : Type} (fuel : Nat) (cmd_name : List String)
    (remaining_args : List String) (opts : ParseStructOptions V)
    (pos : ParseStructPositionals V) (sub : Option ParseStructSubCommand)
    (help : Bool) (positional_index : Nat) (options_ended : Bool) :
    Except EarlyExit (ParseStructOptions V × ParseStructPositionals V × Bool) :=
  match fuel, remaining_args with
  | _, [] => .ok (opts, pos, help)
  | 0, _ :: _ =>
    -- never reached from `parse_struct_args`: the seed `args.length`
    -- dominates the iteration count
    .error (EarlyExit.fromString "loop fuel exhausted")
  | fuel + 1, next_arg :: rest =>
    if opts.help_triggers.contains next_arg && !options_ended then
      parse_struct_args_loop fuel cmd_name rest opts pos sub true positional_index
        options_ended
    else if starts_with_char '-' next_arg && !options_ended then
      if next_arg == "--" then
        parse_struct_args_loop fuel cmd_name rest opts pos sub help positional_index
          true
      else if help then
        .error (EarlyExit.fromString
          "Trailing arguments are not allowed after `help`.")
      else
        match lookup_slot opts.arg_to_slot next_arg with
        | none => .error (EarlyExit.fromString (unrecognized_argument next_arg))
        | some slot_pos =>
          match opts.slots[slot_pos]? with
          | none =>
            -- `self.slots[pos]` would panic in Rust; the generated
            -- registries always index within bounds, so this marker case
            -- is unreachable for real schemas
            .error (EarlyExit.fromString "slot index out of bounds")
          | some (.flag f) =>
            parse_struct_args_loop fuel cmd_name rest
              { opts with
                slots := opts.slots.set slot_pos (.flag (f.set_flag next_arg)) }
              pos sub help positional_index options_ended
          | some (.value pvs) =>
            match rest with
            | [] =>
              .error (EarlyExit.fromString
                ("No value provided for option '" ++ next_arg ++ "'.\n"))
            | value :: rest2 =>
              match pvs.fill_slot next_arg value with
              | (_, .error s) =>
                .error (EarlyExit.fromString
                  ("Error parsing option '" ++ next_arg ++ "' with value '" ++
                    value ++ "': " ++ s ++ "\n"))
              | (pvs', .ok ()) =>
                parse_struct_args_loop fuel cmd_name rest2
                  { opts with
                    slots := opts.slots.set slot_pos (.value pvs') }
                  pos sub help positional_index options_ended
    else
      match sub with
      | some sc =>
        match sc.parse help cmd_name next_arg rest with
        | .error e => .error e
        | .ok true => .ok (opts, pos, false)
        | .ok false =>
          match pos.parse positional_index next_arg with
          | .error e => .error e
          | .ok (pos', index', ended) =>
            parse_struct_args_loop fuel cmd_name rest opts pos' sub help index'
              (options_ended || ended)
      | none =>
        match pos.parse positional_index next_arg with
        | .error e => .error e
        | .ok (pos', index', ended) =>
          parse_struct_args_loop fuel cmd_name rest opts pos' sub help index'
            (options_ended || ended)

/-- One-step unfolding of the loop on a non-empty token list (the
equation-lemma generator does not handle the nested matches, but the
recursion is structural, so this holds by reflexivity). -/
theorem parse_struct_args_loop_cons {V : Type} (fuel : Nat)
    (cmd_name : List String)
    (next_arg : String) (rest : List String) (opts : ParseStructOptions V)
    (pos : ParseStructPositionals V) (sub : Option ParseStructSubCommand)
    (help : Bool) (positional_index : Nat) (options_ended : Bool) :
    parse_struct_args_loop (fuel + 1) cmd_name (next_arg :: rest) opts pos sub
        help positional_index options_ended =
      if opts.help_triggers.contains next_arg && !options_ended then
        parse_struct_args_loop fuel cmd_name rest opts pos sub true
          positional_index options_ended
      else if starts_with_char '-' next_arg && !options_ended then
        if next_arg == "--" then
          parse_struct_args_loop fuel cmd_name rest opts pos sub help
            positional_index true
        else if help then
          .error (EarlyExit.fromString
            "Trailing arguments are not allowed after `help`.")
        else
          match lookup_slot opts.arg_to_slot next_arg with
          | none => .error (EarlyExit.fromString (unrecognized_argument next_arg))
          | some slot_pos =>
            match opts.slots[slot_pos]? with
            | none =>
              .error (EarlyExit.fromString "slot index out of bounds")
            | some (.flag f) =>
              parse_struct_args_loop fuel cmd_name rest
                { opts with
                  slots := opts.slots.set slot_pos (.flag (f.set_flag next_arg)) }
                pos sub help positional_index options_ended
            | some (.value pvs) =>
              match rest with
              | [] =>
                .error (EarlyExit.fromString
                  ("No value provided for option '" ++ next_arg ++ "'.\n"))
              | value :: rest2 =>
                match pvs.fill_slot next_arg value with
                | (_, .error s) =>
                  .error (EarlyExit.fromString
                    ("Error parsing option '" ++ next_arg ++ "' with value '" ++
                      value ++ "': " ++ s ++ "\n"))
                | (pvs', .ok ()) =>
                  parse_struct_args_loop fuel cmd_name rest2
                    { opts with
                      slots := opts.slots.set slot_pos (.value pvs') }
                    pos sub help positional_index options_ended
      else
        match sub with
        | some sc =>
          match sc.parse help cmd_name next_arg rest with
          | .error e => .error e
          | .ok true => .ok (opts, pos, false)
          | .ok false =>
            match pos.parse positional_index next_arg with
            | .error e => .error e
            | .ok (pos', index', ended) =>
              parse_struct_args_loop fuel cmd_name rest opts pos' sub help
                index' (options_ended || ended)
        | none =>
          match pos.parse positional_index next_arg with
          | .error e => .error e
          | .ok (pos', index', ended) =>
            parse_struct_args_loop fuel cmd_name rest opts pos' sub help index'
              (options_ended || ended) := rfl

/-- The loop on an exhausted token slice returns the final state, for any
fuel. -/
theorem parse_struct_args_loop_nil {V : Type} (fuel : Nat)
    (cmd_name : List String) (opts : ParseStructOptions V)
    (pos : ParseStructPositionals V) (sub : Option ParseStructSubCommand)
    (help : Bool) (positional_index : Nat) (options_ended : Bool) :
    parse_struct_args_loop fuel cmd_name [] opts pos sub help positional_index
      options_ended = .ok (opts, pos, help) := by
  cases fuel <;> rfl

/-- Fuel adequacy: any two fuels at least the number of remaining tokens
compute the same result, so the seed `args.length` used by
`parse_struct_args` makes the fuel argument semantically irrelevant. -/
theorem parse_struct_args_loop_fuel {V : Type} :
    ∀ (fuel1 fuel2 : Nat) (cmd_name remaining_args : List String)
      (opts : ParseStructOptions V) (pos : ParseStructPositionals V)
      (sub : Option ParseStructSubCommand) (help : Bool)
      (positional_index : Nat) (options_ended : Bool),
      remaining_args.length ≤ fuel1 → remaining_args.length ≤ fuel2 →
      parse_struct_args_loop fuel1 cmd_name remaining_args opts pos sub help
        positional_index options_ended =
      parse_struct_args_loop fuel2 cmd_name remaining_args opts pos sub help
        positional_index options_ended := by
  intro fuel1
  induction fuel1 with
  | zero =>
    intro fuel2 cmd args opts pos sub help idx oe h1 h2
    have hargs : args = [] := by
      cases args with
      | nil => rfl
      | cons a l => simp at h1
    subst hargs
    rw [parse_struct_args_loop_nil, parse_struct_args_loop_nil]
  | succ f ih =>
    intro fuel2 cmd args opts pos sub help idx oe h1 h2
    cases args with
    | nil => rw [parse_struct_args_loop_nil, parse_struct_args_loop_nil]
    | cons next rest =>
      cases fuel2 with
      | zero => simp at h2
      | succ f2 =>
        have hrest1 : rest.length ≤ f := by simp at h1; omega
        have hrest2 : rest.length ≤ f2 := by simp at h2; omega
        rw [parse_struct_args_loop_cons, parse_struct_args_loop_cons]
        repeat' split
        all_goals first
          | rfl
          | (apply ih <;> simp_all <;> omega)

/-- Function `parse_struct_args`: run the token loop from the initial state
(`help = false`, cursor `0`, options not ended).  If the help flag is
still set when the loop finishes, exit early with the rendered help text
and success status; otherwise return the filled tables. -/
def parse_struct_args {V : Type} (cmd_name args : List String)
    (parse_options : ParseStructOptions V)
    (parse_positionals : ParseStructPositionals V)
    (parse_subcommand : Option ParseStructSubCommand)
    (help_func : Unit → String) :
    Except EarlyExit (ParseStructOptions V × ParseStructPositionals V) :=
  match parse_struct_args_loop args.length cmd_name args parse_options
      parse_positionals parse_subcommand false 0 false with
  | .error e => .error e
  | .ok (opts, pos, help) =>
    if help then .error { output := help_func (), status := .ok () }
    else .ok (opts, pos)

/-- Function-free view of a parse result, for stating concrete runs. -/
def parse_result_stored {V : Type}
    (r : Except EarlyExit (ParseStructOptions V × ParseStructPositionals V)) :
    Except EarlyExit (List (StoredOption V) × List (String × StoredSlot V)) :=
  r.map fun op =>
    (op.1.slots.map ParseStructOption.stored,
      op.2.positionals.map fun q => (q.name, q.slot.stored))

/-- Structure `MissingRequirements`: the deficiency collector filled by the
generated code after a successful scan. -/
structure MissingRequirements where
  options : List String
  subcommands : Option (List CommandInfo)
  positional_args : List String
deriving Repr, DecidableEq

/-- Constant `NEWLINE_INDENT` from `lib.rs`. -/
def NEWLINE_INDENT : String := "\n    "

/-- Method `MissingRequirements::err_on_any`: success when nothing is missing,
otherwise the consolidated message assembled exactly as the Rust code
pushes it: positional section; `\n` before the options section only when
positionals are present; `\n` before the subcommand section only when
options are present; a final `\n`. -/
def MissingRequirements.err_on_any (m : MissingRequirements) :
    Except String Unit :=
  if m.options.isEmpty && m.subcommands.isNone && m.positional_args.isEmpty then
    .ok ()
  else
    let output := ""
    let output :=
      if !m.positional_args.isEmpty then
        m.positional_args.foldl (fun acc arg => acc ++ NEWLINE_INDENT ++ arg)
          (output ++ "Required positional arguments not provided:")
      else output
    let output :=
      if !m.options.isEmpty then
        let output :=
          if !m.positional_args.isEmpty then output ++ "\n" else output
        m.options.foldl (fun acc option => acc ++ NEWLINE_INDENT ++ option)
          (output ++ "Required options not provided:")
      else output
    let output :=
      match m.subcommands with
      | some missing_subcommands =>
        let output := if !m.options.isEmpty then output ++ "\n" else output
        missing_subcommands.foldl
          (fun acc subcommand => acc ++ NEWLINE_INDENT ++ subcommand.name)
          (output ++ "One of the following subcommands must be present:" ++
            NEWLINE_INDENT ++ "help")
      | none => output
    .error (output ++ "\n")

/-- The driver sequence of the generated `from_args` body: run the scan,
propagate its early exits; on a clean scan, collect the missing
requirements from the final tables and fail with the `err_on_any`
message;
otherwise hand back the tables for field assembly.  (`requirements`
stands for the schema-specific generated collection code.) -/
def from_args_driver {V : Type} (cmd_name args : List String)
    (parse_options : ParseStructOptions V)
    (parse_positionals : ParseStructPositionals V)
    (parse_subcommand : Option ParseStructSubCommand)
    (help_func : Unit → String)
    (requirements :
      ParseStructOptions V → ParseStructPositionals V → MissingRequirements) :
    Except EarlyExit (ParseStructOptions V × ParseStructPositionals V) :=
  match parse_struct_args cmd_name args parse_options parse_positionals
      parse_subcommand help_func with
  | .error e => .error e
  | .ok (opts, pos) =>
    match (requirements opts pos).err_on_any with
    | .error s => .error (EarlyExit.fromString s)
    | .ok () => .ok (opts, pos)

/-! ### Concrete example schemas

The dynamic value universe `Val` hosts the field types of the worked
examples of the spec (`usize`-like numbers and strings), and the schemas below
are the `arg_to_slot` / slot tables the derive step would generate for
them. -/

/-- Dynamic value universe for the concrete example schemas. -/
inductive Val where
  | nat (n : Nat)
  | str (s : String)
deriving Repr, DecidableEq

/-- Accumulate the decimal value of a digit string, failing on the first
non-digit character. -/
def parse_decimal : List Char → Nat → Option Nat
  | [], acc => some acc
  | c :: rest, acc =>
    if 48 ≤ c.toNat && c.toNat ≤ 57 then
      parse_decimal rest (acc * 10 + (c.toNat - 48))
    else none

/-- Impl `FromArgValue` for an unsigned-integer field (via the `FromStr`
blanket impl): parse the decimal token. -/
def parse_nat : String → String → Except String Val := fun _ value =>
  match value.data with
  | [] => .error "cannot parse integer from empty string"
  | cs =>
    match parse_decimal cs 0 with
    | some n => .ok (.nat n)
    | none => .error "invalid digit found in string"

/-- Impl `FromArgValue` for a `String` field: always succeeds with the
raw token. -/
def parse_str : String → String → Except String Val := fun _ value =>
  .ok (.str value)

/-- The default help triggers (`--help` and the literal word `help`). -/
def default_help_triggers : List String := ["--help", "help"]

/-- An option table with no flags at all. -/
def empty_options : ParseStructOptions Val :=
  { arg_to_slot := [], slots := [], help_triggers := default_help_triggers }

/-- Positionals `[a: required (number), b: repeating (string)]`. -/
def positionals_a_b : ParseStructPositionals Val :=
  { positionals :=
      [{ name := "a", slot := .opt parse_nat none },
       { name := "b", slot := .vec parse_str [] }],
    last_is_repeating := true,
    last_is_greedy := false }

/-- Options `switch b`, `option c` (both long-name only). -/
def options_b_c : ParseStructOptions Val :=
  { arg_to_slot := [("--b", 0), ("--c", 1)],
    slots := [.flag (.boolFlag false), .value (.opt parse_str none)],
    help_triggers := default_help_triggers }

/-- Positionals `[a: required (number), d: greedy (strings)]`. -/
def positionals_a_d : ParseStructPositionals Val :=
  { positionals :=
      [{ name := "a", slot := .opt parse_nat none },
       { name := "d", slot := .vec parse_str [] }],
    last_is_repeating := true,
    last_is_greedy := true }

/-- A single repeating positional `xs`. -/
def positionals_xs : ParseStructPositionals Val :=
  { positionals := [{ name := "xs", slot := .vec parse_str [] }],
    last_is_repeating := true,
    last_is_greedy := false }

/-- A marker exit distinct from every parent-level message: the child
parser of `sub_one` fails with it, making a dispatch into the subcommand
observable. -/
def child_error_exit : EarlyExit :=
  { output := "CHILD", status := .error () }

/-- A subcommand table with the single static subcommand `sub`, whose
child parser always fails with `child_error_exit`. -/
def sub_one : ParseStructSubCommand :=
  { subcommands := [{ name := "sub", description := "a subcommand" }],
    dynamic_subcommands := [],
    parse_func := fun _ _ => .error child_error_exit }

/-- A fixed rendered help text standing for `help_func()`. -/
def help_text : Unit → String := fun _ => "HELP"

/-- A subcommand table like `sub_one` whose child parser succeeds. -/
def sub_ok : ParseStructSubCommand :=
  { subcommands := [{ name := "sub", description := "a subcommand" }],
    dynamic_subcommands := [],
    parse_func := fun _ _ => .ok () }

/-! ### Shared helper lemmas -/

theorem str_append_assoc (a b c : String) : a ++ b ++ c = a ++ (b ++ c) := by
  apply String.ext
  simp [String.data_append]

theorem str_empty_append (s : String) : "" ++ s = s := by
  apply String.ext
  simp [String.data_append]

/-- Spec-side rendering of the items of one report section: one
newline-indented entry per name. -/
def indented_items : List String → String
  | [] => ""
  | n :: ns => NEWLINE_INDENT ++ n ++ indented_items ns

/-- Spec-side rendering of one report section: its header followed by its
newline-indented items. -/
def report_section (header : String) (names : List String) : String :=
  header ++ indented_items names

theorem foldl_indent_eq (l : List String) (s : String) :
    l.foldl (fun acc x => acc ++ NEWLINE_INDENT ++ x) s = s ++ indented_items l := by
  induction l generalizing s with
  | nil => simp [indented_items]
  | cons n ns ih =>
    rw [List.foldl_cons, ih]
    simp [indented_items, str_append_assoc]

/-! ### Claim theorems -/

/-- C6: with positionals `[a: required, b: repeating]` and no subcommand,
parsing `["5","x","y"]` succeeds with `a = 5` and `b = ["x","y"]`; and in
general, once the positional cursor sits on a last repeating non-greedy
positional, a successfully coerced token is appended to that same slot
and the cursor does not advance (nor is end-of-options signalled). -/
theorem repeating_positional_fills_tail :
    (parse_result_stored (parse_struct_args ["cmd"] ["5", "x", "y"]
        empty_options positionals_a_b none help_text) =
      .ok ([], [("a", .opt (some (.nat 5))), ("b", .vec [.str "x", .str "y"])])) ∧
    (∀ (V : Type) (ps : ParseStructPositionals V) (index : Nat)
        (arg name : String) (p : String → String → Except String V)
        (vs : List V) (t : V),
      ps.last_is_repeating = true →
      ps.last_is_greedy = false →
      index + 1 = ps.positionals.length →
      ps.positionals[index]? = some { name := name, slot := .vec p vs } →
      p "" arg = .ok t →
      ps.parse index arg =
        .ok ({ ps with positionals := ps.positionals.set index ⟨name, ParseValueSlot.vec p (vs ++ [t])⟩ },
          index, false)) := by
  constructor
  · decide
  · intro V ps index arg name p vs t hrep hgreedy hlen hget hparse
    have hlt : index < ps.positionals.length := by omega
    have hgetE : ps.positionals[index] = ⟨name, .vec p vs⟩ := by
      rw [List.getElem?_eq_getElem hlt] at hget
      exact Option.some.inj hget
    have hbeq : (index == ps.positionals.length - 1) = true := by
      simp [Nat.beq_eq_true_eq]
      omega
    simp [ParseStructPositionals.parse, dif_pos hlt, List.get_eq_getElem,
      hgetE, ParseStructPositional.parse, ParseValueSlot.fill_slot, hparse,
      hrep, hgreedy, hbeq]

/-- C6 witness: the general clause at the one-repeating-positional schema
`positionals_xs`, cursor `0`, token `"z"`. -/
theorem repeating_positional_fills_tail_witness :
    positionals_xs.parse 0 "z" =
      .ok ({ positionals_xs with positionals := positionals_xs.positionals.set 0 ⟨"xs", ParseValueSlot.vec parse_str ([] ++ [Val.str "z"])⟩ },
        0, false) :=
  repeating_positional_fills_tail.2 Val positionals_xs 0 "z" "xs" parse_str []
    (.str "z") rfl rfl rfl rfl rfl

/-- C7: with positionals `[a: required, d: greedy]`, switch `b`, option
`c` and no subcommand, parsing `["5","foo","bar","--c","hi"]` succeeds
with `a = 5`, `b = false`, `c = None` and
`d = ["foo","bar","--c","hi"]`: after the first token enters the greedy
slot every remaining raw token, flag-shaped ones included, is appended to
it verbatim. -/
theorem greedy_positional_absorbs_verbatim :
    parse_result_stored (parse_struct_args ["cmd"]
      ["5", "foo", "bar", "--c", "hi"]
      options_b_c positionals_a_d none help_text) =
    .ok ([.flag (.boolFlag false), .value (.opt none)],
      [("a", .opt (some (.nat 5))),
       ("d", .vec [.str "foo", .str "bar", .str "--c", .str "hi"])]) := by
  decide

/-- C9: filling an already-occupied scalar slot fails with "duplicate
values provided" and leaves the stored value unchanged; filling an empty
scalar slot stores the coerced value exactly when coercion succeeds, and
propagates the coercion error (storing nothing) otherwise. -/
theorem scalar_fill_slot_spec {V : Type}
    (p : String → String → Except String V) (arg value : String) :
    (∀ v : V, (ParseValueSlot.opt p (some v)).fill_slot arg value =
      (.opt p (some v), .error "duplicate values provided")) ∧
    (∀ t : V, p arg value = .ok t →
      (ParseValueSlot.opt p none).fill_slot arg value =
        (.opt p (some t), .ok ())) ∧
    (∀ e : String, p arg value = .error e →
      (ParseValueSlot.opt p none).fill_slot arg value =
        (.opt p none, .error e)) := by
  refine ⟨fun v => rfl, fun t ht => ?_, fun e he => ?_⟩
  · simp [ParseValueSlot.fill_slot, ht]
  · simp [ParseValueSlot.fill_slot, he]

/-- C9 witness: a second fill of an occupied string slot errors with the
slot intact, and a first fill stores the coerced value. -/
theorem scalar_fill_slot_spec_witness :
    ((ParseValueSlot.opt parse_str (some (Val.str "a"))).fill_slot "" "z" =
      (.opt parse_str (some (.str "a")), .error "duplicate values provided")) ∧
    ((ParseValueSlot.opt parse_str none).fill_slot "" "z" =
      (.opt parse_str (some (.str "z")), .ok ())) :=
  ⟨(scalar_fill_slot_spec parse_str "" "z").1 (Val.str "a"),
   (scalar_fill_slot_spec parse_str "" "z").2.1 (Val.str "z") rfl⟩

/-- C10: an integer switch counter starting from the default `0` counts
occurrences with saturating addition: after the switch occurs once per
entry of `args`, the counter holds `min args.length maxv`, never wrapping
past the type maximum `maxv`. -/
theorem integer_switch_saturating (maxv : Int) (args : List String)
    (h : 0 ≤ maxv) :
    args.foldl (fun f a => f.set_flag a) (FlagSlot.intFlag maxv 0) =
      .intFlag maxv (min (args.length : Int) maxv) := by
  have key : ∀ (l : List String) (v : Int), v ≤ maxv →
      l.foldl (fun f a => f.set_flag a) (FlagSlot.intFlag maxv v) =
        .intFlag maxv (min (v + l.length) maxv) := by
    intro l
    induction l with
    | nil =>
      intro v hv
      simp [min_eq_left hv]
    | cons a l ih =>
      intro v hv
      simp only [List.foldl_cons]
      rw [show (FlagSlot.intFlag maxv v).set_flag a =
        FlagSlot.intFlag maxv (min (v + 1) maxv) from rfl]
      rw [ih (min (v + 1) maxv) (min_le_right _ _)]
      congr 1
      simp only [List.length_cons]
      push_cast
      omega
  have := key args 0 h
  simpa using this

/-- C10 witness: five occurrences against a maximum of three leave the
counter at three. -/
theorem integer_switch_saturating_witness :
    (0 : Int) ≤ 3 ∧
    ["-c", "-c", "-c", "-c", "-c"].foldl (fun f a => f.set_flag a)
      (FlagSlot.intFlag 3 0) = .intFlag 3 3 :=
  ⟨by decide,
   (integer_switch_saturating 3 ["-c", "-c", "-c", "-c", "-c"]
     (by decide)).trans (by decide)⟩

/-- C1 (counterexample): after the end-of-options separator `--`, a token
equal to a subcommand name is still dispatched to that subcommand — the
run ends with the marker exit of the child parser — and is not filled
into the
positional slot; the same input with no subcommand table does put `sub`
into the positional slot. -/
theorem end_of_options_subcommand_cex :
    parse_result_stored (parse_struct_args ["cmd"] ["--", "sub"]
      empty_options positionals_xs (some sub_one) help_text) =
      .error child_error_exit ∧
    parse_result_stored (parse_struct_args ["cmd"] ["--", "sub"]
      empty_options positionals_xs none help_text) =
      .ok ([], [("xs", .vec [.str "sub"])]) ∧
    parse_result_stored (parse_struct_args ["cmd"] ["--", "sub"]
      empty_options positionals_xs (some sub_one) help_text) ≠
      .ok ([], [("xs", .vec [.str "sub"])]) :=
  ⟨by decide, by decide, by decide⟩

/-- C1 (amended): once the end-of-options flag is set, help-trigger and
flag recognition are bypassed for every token, whatever its shape, but
subcommand recognition still occurs: the token is checked against the
subcommand table first and reaches positional handling only when no
subcommand matches. -/
theorem end_of_options_routing {V : Type} (fuel : Nat)
    (cmd_name : List String)
    (next_arg : String) (rest : List String) (opts : ParseStructOptions V)
    (pos : ParseStructPositionals V) (sub : Option ParseStructSubCommand)
    (help : Bool) (positional_index : Nat) :
    parse_struct_args_loop (fuel + 1) cmd_name (next_arg :: rest) opts pos sub
        help positional_index true =
      match sub with
      | some sc =>
        match sc.parse help cmd_name next_arg rest with
        | .error e => .error e
        | .ok true => .ok (opts, pos, false)
        | .ok false =>
          match pos.parse positional_index next_arg with
          | .error e => .error e
          | .ok (pos', index', _) =>
            parse_struct_args_loop fuel cmd_name rest opts pos' sub help
              index' true
      | none =>
        match pos.parse positional_index next_arg with
        | .error e => .error e
        | .ok (pos', index', _) =>
          parse_struct_args_loop fuel cmd_name rest opts pos' sub help index'
            true := by
  rw [parse_struct_args_loop_cons]
  simp only [Bool.not_true, Bool.and_false, Bool.false_eq_true, if_false,
    Bool.true_or]

/-- C2 (counterexample): a plain positional token after `--help` does not
fail with the trailing-arguments error (the parse ends with the help
exit), and neither does the `--` separator followed by a flag-shaped
token; the claim that every non-subcommand token after a help trigger is
fatal therefore fails. -/
theorem trailing_after_help_cex :
    parse_result_stored (parse_struct_args ["cmd"] ["--help", "x"]
      empty_options positionals_xs none help_text) =
      .error { output := "HELP", status := .ok () } ∧
    parse_result_stored (parse_struct_args ["cmd"] ["--help", "--", "-x"]
      empty_options positionals_xs none help_text) =
      .error { output := "HELP", status := .ok () } ∧
    (.error { output := "HELP", status := .ok () } :
        Except EarlyExit (List (StoredOption Val) × List (String × StoredSlot Val))) ≠
      .error (EarlyExit.fromString
        "Trailing arguments are not allowed after `help`.") :=
  ⟨by decide, by decide, by decide⟩

/-- C2 (amended): after a help trigger has been consumed, a later
flag-shaped token — one starting with `-`, other than exactly `--`, and
not itself a help trigger — consumed while the end-of-options flag is
unset makes the parse fail immediately with "Trailing arguments are not
allowed after `help`."; help triggers, the `--` separator, and plain
positional-shaped tokens do not produce this error. -/
theorem trailing_after_help_flag_shaped {V : Type} (fuel : Nat)
    (cmd_name : List String)
    (t : String) (rest : List String) (opts : ParseStructOptions V)
    (pos : ParseStructPositionals V) (sub : Option ParseStructSubCommand)
    (positional_index : Nat)
    (h1 : opts.help_triggers.contains t = false)
    (h2 : starts_with_char '-' t = true)
    (h3 : (t == "--") = false) :
    parse_struct_args_loop (fuel + 1) cmd_name (t :: rest) opts pos sub true
        positional_index false =
      .error (EarlyExit.fromString
        "Trailing arguments are not allowed after `help`.") := by
  rw [parse_struct_args_loop_cons]
  simp only [h1]
  simp [h2, h3]

/-- C2 witness: the amended claim at the flag-shaped token `-x`. -/
theorem trailing_after_help_flag_shaped_witness :
    empty_options.help_triggers.contains "-x" = false ∧
    starts_with_char '-' "-x" = true ∧
    (("-x" : String) == "--") = false ∧
    parse_struct_args_loop 1 ["cmd"] ["-x"] empty_options positionals_xs none
      true 0 false =
      .error (EarlyExit.fromString
        "Trailing arguments are not allowed after `help`.") :=
  ⟨by decide, by decide, by decide,
   trailing_after_help_flag_shaped 0 ["cmd"] "-x" [] empty_options
     positionals_xs none 0 (by decide) (by decide) (by decide)⟩

/-- C4: when the scan loop completes with the help flag still set, the
parse returns the success-disposition early exit carrying the rendered
help text, and the driver propagates it before requirement checking ever
runs: the same exit is produced whatever deficiencies the requirement
collector would report. -/
theorem help_exit_priority {V : Type} (cmd_name args : List String)
    (opts : ParseStructOptions V) (pos : ParseStructPositionals V)
    (sub : Option ParseStructSubCommand) (help_func : Unit → String)
    (requirements :
      ParseStructOptions V → ParseStructPositionals V → MissingRequirements)
    (opts' : ParseStructOptions V) (pos' : ParseStructPositionals V)
    (h : parse_struct_args_loop args.length cmd_name args opts pos sub false
      0 false = .ok (opts', pos', true)) :
    parse_struct_args cmd_name args opts pos sub help_func =
      .error { output := help_func (), status := .ok () } ∧
    from_args_driver cmd_name args opts pos sub help_func requirements =
      .error { output := help_func (), status := .ok () } := by
  have hp : parse_struct_args cmd_name args opts pos sub help_func =
      .error { output := help_func (), status := .ok () } := by
    rw [parse_struct_args, h]
    rfl
  refine ⟨hp, ?_⟩
  rw [from_args_driver, hp]

/-- C4 witness: a schema whose requirement collector reports a missing
required option still yields the help exit when `--help` was parsed. -/
theorem help_exit_priority_witness :
    parse_struct_args_loop 1 ["cmd"] ["--help"] options_b_c positionals_xs
      none false 0 false = .ok (options_b_c, positionals_xs, true) ∧
    MissingRequirements.err_on_any
      { options := ["--c"], subcommands := none, positional_args := [] } =
      .error "Required options not provided:\n    --c\n" ∧
    from_args_driver ["cmd"] ["--help"] options_b_c positionals_xs none
      help_text (fun _ _ =>
        { options := ["--c"], subcommands := none, positional_args := [] }) =
      .error { output := "HELP", status := .ok () } :=
  ⟨rfl, by decide,
   (help_exit_priority ["cmd"] ["--help"] options_b_c positionals_xs none
     help_text (fun _ _ =>
       { options := ["--c"], subcommands := none, positional_args := [] })
     options_b_c positionals_xs rfl).2⟩

/-- C5: when a consumed token matches a subcommand descriptor, the child
parser is invoked with command path `parent path ++ [matched name]` and
with the remaining tokens, `help`-prepended exactly when the parent help
flag was set; and at the parent loop a successful dispatch returns
immediately — the help flag cleared, the parent tables untouched, and no
further token examined at the parent level. -/
theorem subcommand_dispatch_spec :
    (∀ (sc : ParseStructSubCommand) (help : Bool) (cmd_name : List String)
        (arg : String) (remaining_args : List String) (c : CommandInfo),
      (sc.subcommands ++ sc.dynamic_subcommands).find?
          (fun x => x.name == arg) = some c →
      sc.parse help cmd_name arg remaining_args =
        match sc.parse_func (cmd_name ++ [c.name])
            (if help then prepend_help remaining_args else remaining_args) with
        | .error e => .error e
        | .ok () => .ok true) ∧
    (∀ (V : Type) (fuel : Nat) (cmd_name : List String) (arg : String)
        (rest : List String)
        (opts : ParseStructOptions V) (pos : ParseStructPositionals V)
        (sc : ParseStructSubCommand) (help : Bool) (positional_index : Nat)
        (options_ended : Bool) (c : CommandInfo),
      (opts.help_triggers.contains arg && !options_ended) = false →
      (starts_with_char '-' arg && !options_ended) = false →
      (sc.subcommands ++ sc.dynamic_subcommands).find?
          (fun x => x.name == arg) = some c →
      sc.parse_func (cmd_name ++ [c.name])
          (if help then prepend_help rest else rest) = .ok () →
      parse_struct_args_loop (fuel + 1) cmd_name (arg :: rest) opts pos
          (some sc) help positional_index options_ended =
        .ok (opts, pos, false)) := by
  constructor
  · intro sc help cmd_name arg remaining_args c hfind
    simp [ParseStructSubCommand.parse, hfind]
  · intro V fuel cmd_name arg rest opts pos sc help positional_index
      options_ended c hg1 hg2 hfind hok
    rw [parse_struct_args_loop_cons]
    simp only [hg1, hg2]
    simp [ParseStructSubCommand.parse, hfind, hok]

/-- C5 witness: dispatching `sub` with the parent help flag set invokes
the child on `help`-prepended arguments and succeeds, and the parent loop
returns at once with its help flag cleared. -/
theorem subcommand_dispatch_spec_witness :
    sub_ok.parse true ["cmd"] "sub" ["z"] = .ok true ∧
    parse_struct_args_loop 2 ["cmd"] ["sub", "z"] empty_options positionals_xs
      (some sub_ok) true 0 false = .ok (empty_options, positionals_xs, false) :=
  ⟨(subcommand_dispatch_spec.1 sub_ok true ["cmd"] "sub" ["z"]
      ⟨"sub", "a subcommand"⟩ rfl).trans rfl,
   subcommand_dispatch_spec.2 Val 1 ["cmd"] "sub" ["z"] empty_options
     positionals_xs sub_ok true 0 false ⟨"sub", "a subcommand"⟩
     (by decide) (by decide) rfl rfl⟩

/-- C8 (counterexample): when a help trigger has already been consumed, a
later `--foo=bar` token fails with the trailing-arguments error, not with
"Unrecognized argument", even though no registry string contains `=`;
the equals-joined rejection is therefore not unconditional. -/
theorem equals_joined_after_help_cex :
    parse_result_stored (parse_struct_args ["cmd"] ["--help", "--foo=bar"]
      options_b_c positionals_xs none help_text) =
      .error (EarlyExit.fromString
        "Trailing arguments are not allowed after `help`.") ∧
    (.error (EarlyExit.fromString
        "Trailing arguments are not allowed after `help`.") :
        Except EarlyExit (List (StoredOption Val) × List (String × StoredSlot Val))) ≠
      .error (EarlyExit.fromString (unrecognized_argument "--foo=bar")) :=
  ⟨by decide, by decide⟩

/-- C8 (amended): before the end-of-options flag is set, and provided no
help trigger has been consumed earlier, a flag-shaped token containing
`=` parsed against a registry none of whose strings contains `=` always
fails with the "Unrecognized argument" error naming the full token: the
parser never splits on `=`. -/
theorem equals_joined_flag_unrecognized {V : Type} (fuel : Nat)
    (cmd_name : List String)
    (t : String) (rest : List String) (opts : ParseStructOptions V)
    (pos : ParseStructPositionals V) (sub : Option ParseStructSubCommand)
    (positional_index : Nat)
    (hreg : ∀ p ∈ opts.arg_to_slot, p.1.data.contains '=' = false)
    (ht : t.data.contains '=' = true)
    (h1 : opts.help_triggers.contains t = false)
    (h2 : starts_with_char '-' t = true) :
    parse_struct_args_loop (fuel + 1) cmd_name (t :: rest) opts pos sub false
        positional_index false =
      .error (EarlyExit.fromString (unrecognized_argument t)) := by
  have h3 : (t == "--") = false := by
    rw [beq_eq_false_iff_ne]
    intro he
    rw [he] at ht
    simp at ht
  have hlook : lookup_slot opts.arg_to_slot t = none := by
    rw [lookup_slot, List.findSome?_eq_none_iff]
    intro p hp
    have hne : p.1 ≠ t := by
      intro he
      have hc := hreg p hp
      rw [he, ht] at hc
      cases hc
    simp [hne]
  rw [parse_struct_args_loop_cons]
  simp only [h1]
  simp [h2, h3, hlook]

/-- C8 witness: `--foo=bar` against the `switch b` / `option c` registry
is rejected as unrecognized. -/
theorem equals_joined_flag_unrecognized_witness :
    (∀ p ∈ options_b_c.arg_to_slot, p.1.data.contains '=' = false) ∧
    "--foo=bar".data.contains '=' = true ∧
    parse_struct_args_loop 1 ["cmd"] ["--foo=bar"] options_b_c positionals_xs
      none false 0 false =
      .error (EarlyExit.fromString (unrecognized_argument "--foo=bar")) :=
  ⟨by decide, by decide,
   equals_joined_flag_unrecognized 0 ["cmd"] "--foo=bar" [] options_b_c
     positionals_xs none 0 (by decide) (by decide) (by decide) (by decide)⟩

/-- Relate the Rust accumulation loop over subcommand descriptors to the
spec-side rendering of their names. -/
theorem foldl_indent_name_eq (l : List CommandInfo) (s : String) :
    l.foldl (fun acc c => acc ++ NEWLINE_INDENT ++ c.name) s =
      s ++ indented_items (l.map (fun c => c.name)) := by
  have h := foldl_indent_eq (l.map (fun c => c.name)) s
  rw [List.foldl_map] at h
  exact h

/-- Lemma `foldl_indent_eq` with the append in the fold body already
right-associated (the form left after `simp` normalisation). -/
theorem foldl_indent_eq2 (l : List String) (s : String) :
    l.foldl (fun acc x => acc ++ (NEWLINE_INDENT ++ x)) s =
      s ++ indented_items l := by
  have h := foldl_indent_eq l s
  simpa [str_append_assoc] using h

/-- Lemma `foldl_indent_name_eq` with the append right-associated. -/
theorem foldl_indent_name_eq2 (l : List CommandInfo) (s : String) :
    l.foldl (fun acc c => acc ++ (NEWLINE_INDENT ++ c.name)) s =
      s ++ indented_items (l.map (fun c => c.name)) := by
  have h := foldl_indent_name_eq l s
  simpa [str_append_assoc] using h

/-- A deficiency record with a missing positional and a missing
subcommand but no missing option. -/
def missing_pos_and_sub : MissingRequirements :=
  { options := [], subcommands := some [{ name := "sub", description := "d" }], positional_args := ["a"] }

/-- C3 (counterexample): with a missing required positional and a missing
subcommand but no missing required option, the consolidated message runs
the positional section and the subcommand section together with no
newline between them, so adjacent present sections are not always
newline-separated. -/
theorem missing_requirements_separator_cex :
    missing_pos_and_sub.err_on_any =
      .error "Required positional arguments not provided:\n    aOne of the following subcommands must be present:\n    help\n    sub\n" ∧
    ("Required positional arguments not provided:\n    aOne of the following subcommands must be present:\n    help\n    sub\n" : String) ≠
      "Required positional arguments not provided:\n    a\nOne of the following subcommands must be present:\n    help\n    sub\n" :=
  ⟨by decide, by decide⟩

/-- C3 (amended): the consolidated message lists, in order, the missing
required positionals by name, the missing required options by name, and a
subcommand section whose enumeration starts with the literal `help`
followed by all subcommand names; the section order is fixed and absent
categories contribute nothing, and when nothing is missing the checker
returns success with no message — but a newline separator precedes the
options section only when positionals are present and precedes the
subcommand section only when options are present (so a positional section
directly followed by a subcommand section has no separator). -/
theorem missing_requirements_report (m : MissingRequirements) :
    m.err_on_any =
      if m.options.isEmpty && m.subcommands.isNone && m.positional_args.isEmpty then
        .ok ()
      else
        .error
          ((if m.positional_args.isEmpty then ""
            else report_section "Required positional arguments not provided:"
              m.positional_args) ++
           ((if m.options.isEmpty then ""
            else (if m.positional_args.isEmpty then "" else "\n") ++
              report_section "Required options not provided:" m.options) ++
           ((match m.subcommands with
            | none => ""
            | some subs =>
              (if m.options.isEmpty then "" else "\n") ++
                report_section
                  "One of the following subcommands must be present:"
                  ("help" :: subs.map (fun c => c.name))) ++ "\n"))) := by
  rcases m with ⟨os, scs, ps⟩
  rcases scs with _ | subs <;> rcases os with _ | ⟨o, os⟩ <;>
    rcases ps with _ | ⟨q, qs⟩
  all_goals
    simp [MissingRequirements.err_on_any, report_section, indented_items,
      foldl_indent_eq2, foldl_indent_name_eq2, str_append_assoc,
      str_empty_append]
  all_goals
    simp only [← str_append_assoc]
  all_goals
    simp only [str_append_assoc _ "\n" "Required options not provided:",
      str_append_assoc _ "\n"
        "One of the following subcommands must be present:"]
  all_goals
    simp

end Argh
